import Mathlib

/-!
# Document summariser (src/src/App.jsx): orchestration of the remote calls

A shallow embedding of the non-presentational logic of the `DocumentSummarizer`
component: the React state, the handlers `processDocument`, `deleteObjects`,
`resetApp`, `logApiCall`, `handleFileSelect` and the Cancel handler.

Modelling conventions

* A handler is a function on `State`.  The `set…` calls of the source become
  record updates, applied in the order in which the source performs them;
  functional updates (`prev => [...prev, x]`) append to the current value.
* The remote service and the clock are inputs.  What a `fetch` followed by
  `response.json()` yields is an `Outcome`: either the promise chain rejects
  (the network fails, or the body is not JSON), or it delivers the `ok` flag
  and the decoded body.  The clock readings used by `logApiCall` come with
  the outcome that is logged.
* `State.sent` is not React state: it is the record of the `fetch` calls
  issued so far, each with what it yielded, kept to state which remote calls
  a handler makes.
* An `async` handler is run to completion by `processDocument` and
  `deleteObjects`; `processDocumentCancelAt` runs `processDocument` segment
  by segment (one segment per `await`) so that the Cancel handler can be
  interleaved.
* A session (`play`) is a sequence of events, each running one segment of
  one handler: handlers in flight may overlap, and a suspended handler is
  resumed on the state as the others have left it.
* The wording of the `TypeError`s the source can raise is the engine's
  (`Engine`); `v8` is one engine.
-/

namespace DocumentSummarizer

/-! ## JavaScript values -/

/-- JavaScript values as they occur in decoded JSON bodies and in React state.
A number is kept as its `Number.prototype.toString` rendering; JSON has no
`NaN`, so a number is falsy exactly when it renders as `0`. An object is the
list of its own properties, keys distinct. -/
inductive Val where
  | undefined : Val
  | null : Val
  | bool (b : Bool) : Val
  | num (shown : String) : Val
  | str (s : String) : Val
  | arr (items : List Val) : Val
  | obj (fields : List (String × Val)) : Val

namespace Val

/-- JavaScript truthiness, as used by `||`. -/
def truthy : Val → Bool
  | undefined => false
  | null => false
  | bool b => b
  | num shown => shown != "0"
  | str s => s != ""
  | arr _ => true
  | obj _ => true

/-- The operator `a || b`. -/
def orElse (a b : Val) : Val := if a.truthy then a else b

/-- Own-property lookup in the property list of an object. -/
def lookup (key : String) : List (String × Val) → Val
  | [] => undefined
  | (k, v) :: rest => if k = key then v else lookup key rest

/-- Property access `v.key`, for the two keys the source reads (`message`,
`text_value`), which no prototype defines: an object yields its own property
or `undefined`, every other value but `null` and `undefined` yields
`undefined`, and `null` and `undefined` raise a `TypeError`; the error value
names the base that was read (`null` or `undefined`), the wording of the
message being the engine's. -/
def getProp (v : Val) (key : String) : Except String Val :=
  match v with
  | undefined => .error "undefined"
  | null => .error "null"
  | obj fields => .ok (lookup key fields)
  | _ => .ok undefined

/-- Whether an object has an own property `toString`. A decoded JSON value is
never callable, so such a property hides `Object.prototype.toString` and the
object cannot be converted to a primitive. -/
def hidesToString (fields : List (String × Val)) : Bool :=
  fields.any (fun kv => kv.1 == "toString")

mutual
/-- The string conversion performed by a template literal: `none` when the
conversion raises the `TypeError` of an object that cannot be converted to a
primitive value. -/
def render : Val → Option String
  | undefined => some "undefined"
  | null => some "null"
  | bool b => some (if b then "true" else "false")
  | num shown => some shown
  | str s => some s
  | arr items => renderItems items
  | obj fields => if hidesToString fields then none else some "[object Object]"
/-- The conversion `Array.prototype.join` performs with the separator `,`:
`null` and `undefined` items render as the empty string, every other item is
converted to a string, which can raise. -/
def renderItems : List Val → Option String
  | [] => some ""
  | [undefined] => some ""
  | [null] => some ""
  | [v] => render v
  | undefined :: rest =>
    match renderItems rest with
    | none => none
    | some tail => some ("," ++ tail)
  | null :: rest =>
    match renderItems rest with
    | none => none
    | some tail => some ("," ++ tail)
  | v :: rest =>
    match render v with
    | none => none
    | some head =>
      match renderItems rest with
      | none => none
      | some tail => some (head ++ "," ++ tail)
end

end Val

/-- The wording of the two `TypeError`s the source can raise, which differs
from one JavaScript engine to the other. -/
structure Engine where
  /-- The message for reading the property `key` of the variable named `name`
  whose value is `base` (`null` or `undefined`). -/
  nullishAccess : (name base key : String) → String
  /-- The message for an object that cannot be converted to a primitive
  value. -/
  notPrimitive : String

/-- The wording of V8. -/
def v8 : Engine where
  nullishAccess := fun _ base key =>
    "Cannot read properties of " ++ base ++ " (reading '" ++ key ++ "')"
  notPrimitive := "Cannot convert object to primitive value"

/-! ## Files, requests, outcomes and the audit log -/

/-- A `File` picked by the user. `text` is what `FileReader.readAsText`
delivers: `none` when the reader fires `onerror`. -/
structure File where
  name : String
  size : Nat
  text : Option String

/-- A call of `fetch`: method, URL and the payload that is serialised into the
request body (`none` for calls without a body). The headers are the same
constant `API_HEADERS` in every call and are left out. -/
structure Request where
  method : String
  url : String
  payload : Option Val

/-- The two clock readings `logApiCall` takes: `new Date().toISOString()` and
`Date.now()`. -/
structure Clock where
  iso : String
  now : Nat

/-- What `await fetch(...)` followed by `await response.json()` yields. -/
inductive Outcome where
  /-- Either promise rejects: `fetch` fails at the transport level, or the
  body cannot be decoded as JSON. `message` is `err.message`. -/
  | rejected (message : String) : Outcome
  /-- A response arrived and its body decoded to `body`; `ok` is
  `response.ok` (status 2xx). `clock` holds the clock readings at the time
  the response is logged. -/
  | responded (ok : Bool) (body : Val) (clock : Clock) : Outcome

/-- A remote call: the request issued and what it yielded. -/
structure Exchange where
  request : Request
  outcome : Outcome

/-- An entry of `apiLogs`. -/
structure LogEntry where
  timestamp : String
  method : String
  url : String
  data : Val
  response : Val
  id : Nat

/-- The state of the component (the presentation-only flags `isDragOver`,
`darkMode`, `showRawData` are left out), together with the record `sent` of
the remote calls made so far. -/
structure State where
  currentStep : Nat
  file : Option File
  isProcessing : Bool
  progress : Nat
  summary : Val
  error : String
  apiLogs : List LogEntry
  rawData : Val
  createdObjects : List String
  sent : List Exchange

/-- The state built by the `useState` initialisers, before any call. -/
def initialState : State where
  currentStep := 1
  file := none
  isProcessing := false
  progress := 0
  summary := .str ""
  error := ""
  apiLogs := []
  rawData := .null
  createdObjects := []
  sent := []

def API_BASE : String := "https://builder.impromptu-labs.com/api_tools"

/-- The function `logApiCall`: append one entry to `apiLogs`. -/
def logApiCall (method url : String) (data response : Val) (clock : Clock) (s : State) : State :=
  let logEntry : LogEntry :=
    { timestamp := clock.iso, method := method, url := url, data := data,
      response := response, id := clock.now }
  { s with apiLogs := s.apiLogs ++ [logEntry] }

/-- The effect of calling `fetch`: the request is issued, and `outcome` is
what awaiting it will yield. -/
def fetch (req : Request) (outcome : Outcome) (s : State) : State :=
  { s with sent := s.sent ++ [{ request := req, outcome := outcome }] }

/-- The handler `handleFileSelect` (and, for the modelled state, `handleDrop`):
`picked` is `files[0]`. -/
def handleFileSelect (picked : Option File) (s : State) : State :=
  match picked with
  | some selectedFile => { s with file := some selectedFile, error := "" }
  | none => s

/-- The function `readFileContent`: the promise resolves with the text or
rejects with `Failed to read file`. -/
def readFileContent (file : File) : Except String String :=
  match file.text with
  | some content => .ok content
  | none => .error "Failed to read file"

/-! ## processDocument -/

/-- How a block of statements ends: normally, or by a `throw`; `message` is
the `message` of the thrown error. Either way the state updates made so far
stay. -/
inductive Completion where
  | normal (s : State) : Completion
  | thrown (message : String) (s : State) : Completion

/-- The message of the error raised by
`throw new Error(heading + (result.message || 'Unknown error'))`, the heading
and the alternative being the two parts of the template literal and `name`
the name of the variable that holds `result`: reading `message` of
a `null` body raises a `TypeError` of its own, and so does the conversion of
a `message` that is an object with an own `toString`. -/
def failureMessage (engine : Engine) (name heading : String) (result : Val) : String :=
  match result.getProp "message" with
  | .error base => engine.nullishAccess name base "message"
  | .ok message =>
    match (message.orElse (.str "Unknown error")).render with
    | none => engine.notPrimitive
    | some text => heading ++ text

def ingestUrl : String := API_BASE ++ "/input_data"

def ingestData (fileContent : String) : Val :=
  .obj [("created_object_name", .str "uploaded_document"),
        ("data_type", .str "strings"),
        ("input_data", .arr [.str fileContent])]

def promptUrl : String := API_BASE ++ "/apply_prompt"

def promptData : Val :=
  .obj [("created_object_names", .arr [.str "document_summary"]),
        ("prompt_string", .str ("Analyze this document and identify the key topics/subjects discussed. Provide exactly 2 bullet points that summarize the main themes. Format as clean bullet points without any additional text or explanation: " ++ "\x7buploaded_document\x7d")),
        ("inputs", .arr [.obj [("input_object_name", .str "uploaded_document"),
                               ("mode", .str "combine_events")]])]

def resultUrl : String := API_BASE ++ "/return_data/document_summary"

/-- The environment as one run of `processDocument` meets it: the outcome of
each of its three remote calls, and the engine that words the `TypeError`s. -/
structure RunEnv where
  engine : Engine
  ingest : Outcome
  prompt : Outcome
  result : Outcome

/-- Step 4 of the `try` block (lines 141-159): retrieve the summary. -/
def retrieveSummary (env : RunEnv) (s : State) : Completion :=
  let s := { s with progress := 90 }
  let s := fetch { method := "GET", url := resultUrl, payload := none } env.result s
  match env.result with
  | .rejected message => .thrown message s
  | .responded ok result clock =>
    let s := logApiCall "GET" resultUrl .null result clock s
    if !ok then
      .thrown (failureMessage env.engine "result" "Failed to retrieve summary: " result) s
    else
      let s := { s with rawData := result }
      match result.getProp "text_value" with
      | .error base => .thrown (env.engine.nullishAccess "result" base "text_value") s
      | .ok textValue =>
        let s := { s with summary := textValue }
        let s := { s with progress := 100 }
        let s := { s with currentStep := 3 }
        .normal s

/-- Step 3 of the `try` block (lines 114-139): generate the summary, then go
on to step 4. -/
def generateSummary (env : RunEnv) (s : State) : Completion :=
  let s := { s with progress := 70 }
  let s := fetch { method := "POST", url := promptUrl, payload := some promptData } env.prompt s
  match env.prompt with
  | .rejected message => .thrown message s
  | .responded ok promptResult clock =>
    let s := logApiCall "POST" promptUrl promptData promptResult clock s
    if !ok then
      .thrown (failureMessage env.engine "promptResult" "Failed to generate summary: " promptResult) s
    else
      let s := { s with createdObjects := s.createdObjects ++ ["document_summary"] }
      retrieveSummary env s

/-- Step 2 of the `try` block (lines 90-112): ingest the file data, then go on
to step 3. -/
def ingestDocument (env : RunEnv) (fileContent : String) (s : State) : Completion :=
  let s := { s with progress := 40 }
  let s := fetch { method := "POST", url := ingestUrl, payload := some (ingestData fileContent) }
    env.ingest s
  match env.ingest with
  | .rejected message => .thrown message s
  | .responded ok ingestResult clock =>
    let s := logApiCall "POST" ingestUrl (ingestData fileContent) ingestResult clock s
    if !ok then
      .thrown (failureMessage env.engine "ingestResult" "Failed to upload document: " ingestResult) s
    else
      let s := { s with createdObjects := s.createdObjects ++ ["uploaded_document"] }
      generateSummary env s

/-- The `try` block of `processDocument` (lines 85-160). -/
def tryBlock (env : RunEnv) (file : File) (s : State) : Completion :=
  let s := { s with progress := 20 }
  match readFileContent file with
  | .error message => .thrown message s
  | .ok fileContent => ingestDocument env fileContent s

/-- The `catch` and `finally` blocks of `processDocument` (lines 161-166). -/
def settle : Completion → State
  | .normal s => { s with isProcessing := false }
  | .thrown message s =>
    let s := { s with error := message }
    let s := { s with currentStep := 1 }
    { s with isProcessing := false }

/-- The handler `processDocument` (lines 74-167), run to completion against
`env`. -/
def processDocument (env : RunEnv) (s : State) : State :=
  match s.file with
  | none => { s with error := "Please select a file first" }
  | some file =>
    let s := { s with currentStep := 2 }
    let s := { s with isProcessing := true }
    let s := { s with progress := 0 }
    let s := { s with error := "" }
    settle (tryBlock env file s)

/-! ## deleteObjects, resetApp, Cancel -/

def deleteUrl (objectName : String) : String := API_BASE ++ "/objects/" ++ objectName

/-- The `for` loop of `deleteObjects` (lines 171-179) over the remaining
names; `stub k` is the outcome of the `k`-th DELETE call of this invocation
and `k` counts the calls made so far. The loop has no `try` of its own: a
rejection leaves it. -/
def deleteLoop (stub : Nat → Outcome) : Nat → List String → State → Completion
  | _, [], s => .normal s
  | k, objectName :: rest, s =>
    let s := fetch { method := "DELETE", url := deleteUrl objectName, payload := none } (stub k) s
    match stub k with
    | .rejected message => .thrown message s
    | .responded _ deleteResult clock =>
      let s := logApiCall "DELETE" (deleteUrl objectName) .null deleteResult clock s
      deleteLoop stub (k + 1) rest s

/-- The handler `deleteObjects` (lines 169-187), run to completion against
`stub`. The
loop runs over the `createdObjects` of the state in which the handler is
invoked. -/
def deleteObjects (stub : Nat → Outcome) (s : State) : State :=
  match deleteLoop stub 0 s.createdObjects s with
  | .normal s =>
    let s := { s with createdObjects := [] }
    let s := { s with summary := .str "" }
    let s := { s with rawData := .null }
    { s with currentStep := 1 }
  | .thrown message s => { s with error := "Failed to delete objects: " ++ message }

/-- The handler `resetApp` (lines 189-198); clearing the file input element is
outside the modelled state. -/
def resetApp (s : State) : State :=
  let s := { s with currentStep := 1 }
  let s := { s with file := none }
  let s := { s with summary := .str "" }
  let s := { s with error := "" }
  { s with progress := 0 }

/-- The `onClick` handler of the Cancel button (lines 345-348). The button is
rendered only while `currentStep === 2`. -/
def cancelClick (s : State) : State :=
  let s := { s with isProcessing := false }
  { s with currentStep := 1 }

/-! ## processDocument, one segment per await -/

/-- An `async` handler in progress: it has returned (`done`), or it is
suspended at an `await` with state `s`, and `resume` is the rest of its body,
run on the state as it is when the awaited promise settles. Other handlers
may run in between. -/
inductive Run where
  | done (s : State) : Run
  | awaiting (s : State) (resume : State → Run) : Run

/-- Lines 149-166: the rest of `processDocument` once the GET call has
settled. -/
def resumeAfterResult (env : RunEnv) (s : State) : Run :=
  match env.result with
  | .rejected message => .done (settle (.thrown message s))
  | .responded ok result clock =>
    let s := logApiCall "GET" resultUrl .null result clock s
    if !ok then
      .done (settle (.thrown (failureMessage env.engine "result" "Failed to retrieve summary: " result) s))
    else
      let s := { s with rawData := result }
      match result.getProp "text_value" with
      | .error base =>
        .done (settle (.thrown (env.engine.nullishAccess "result" base "text_value") s))
      | .ok textValue =>
        let s := { s with summary := textValue }
        let s := { s with progress := 100 }
        let s := { s with currentStep := 3 }
        .done (settle (.normal s))

/-- Lines 132-147: from the settling of the `apply_prompt` call to the issue
of the GET call. -/
def resumeAfterPrompt (env : RunEnv) (s : State) : Run :=
  match env.prompt with
  | .rejected message => .done (settle (.thrown message s))
  | .responded ok promptResult clock =>
    let s := logApiCall "POST" promptUrl promptData promptResult clock s
    if !ok then
      .done (settle (.thrown (failureMessage env.engine "promptResult" "Failed to generate summary: " promptResult) s))
    else
      let s := { s with createdObjects := s.createdObjects ++ ["document_summary"] }
      let s := { s with progress := 90 }
      let s := fetch { method := "GET", url := resultUrl, payload := none } env.result s
      .awaiting s (resumeAfterResult env)

/-- Lines 105-130: from the settling of the `input_data` call to the issue of
the `apply_prompt` call. -/
def resumeAfterIngest (env : RunEnv) (fileContent : String) (s : State) : Run :=
  match env.ingest with
  | .rejected message => .done (settle (.thrown message s))
  | .responded ok ingestResult clock =>
    let s := logApiCall "POST" ingestUrl (ingestData fileContent) ingestResult clock s
    if !ok then
      .done (settle (.thrown (failureMessage env.engine "ingestResult" "Failed to upload document: " ingestResult) s))
    else
      let s := { s with createdObjects := s.createdObjects ++ ["uploaded_document"] }
      let s := { s with progress := 70 }
      let s := fetch { method := "POST", url := promptUrl, payload := some promptData } env.prompt s
      .awaiting s (resumeAfterPrompt env)

/-- Lines 88-103: from the settling of `readFileContent` to the issue of the
`input_data` call. -/
def resumeAfterRead (env : RunEnv) (file : File) (s : State) : Run :=
  match readFileContent file with
  | .error message => .done (settle (.thrown message s))
  | .ok fileContent =>
    let s := { s with progress := 40 }
    let s := fetch { method := "POST", url := ingestUrl, payload := some (ingestData fileContent) }
      env.ingest s
    .awaiting s (resumeAfterIngest env fileContent)

/-- Lines 74-88: `processDocument` from the click to its first `await`. The
`file` read later is the one of the state in which the handler was invoked. -/
def startProcessDocument (env : RunEnv) (s : State) : Run :=
  match s.file with
  | none => .done { s with error := "Please select a file first" }
  | some file =>
    let s := { s with currentStep := 2 }
    let s := { s with isProcessing := true }
    let s := { s with progress := 0 }
    let s := { s with error := "" }
    let s := { s with progress := 20 }
    .awaiting s (resumeAfterRead env file)

/-- Run a handler to its end with no other handler in between. -/
def Run.complete : Run → State
  | .done s => s
  | .awaiting s resume => (resume s).complete

/-- Run a handler to its end with one click on Cancel, made while the handler
is suspended at its `n`-th `await` (counted from 0: the file read, then the
three remote calls). When the handler ends before it reaches that `await`,
no click happens: the button is gone. -/
def Run.completeCancelAt : Nat → Run → State
  | _, .done s => s
  | 0, .awaiting s resume => (resume (cancelClick s)).complete
  | n + 1, .awaiting s resume => Run.completeCancelAt n (resume s)

/-- The handler `processDocument` with a click on Cancel during its `n`-th
`await`. -/
def processDocumentCancelAt (n : Nat) (env : RunEnv) (s : State) : State :=
  (startProcessDocument env s).completeCancelAt n

/-! ## Sessions -/

/-- The rest of `deleteObjects` (lines 171-186) when the names `names` are
still to be deleted, the next DELETE call being the `k`-th of the invocation:
each call is awaited, and the loop is left by a rejection. -/
def deleteFrom (stub : Nat → Outcome) : Nat → List String → State → Run
  | _, [], s =>
    let s := { s with createdObjects := [] }
    let s := { s with summary := .str "" }
    let s := { s with rawData := .null }
    .done { s with currentStep := 1 }
  | k, objectName :: rest, s =>
    let s := fetch { method := "DELETE", url := deleteUrl objectName, payload := none } (stub k) s
    .awaiting s (fun s =>
      match stub k with
      | .rejected message => .done { s with error := "Failed to delete objects: " ++ message }
      | .responded _ deleteResult clock =>
        let s := logApiCall "DELETE" (deleteUrl objectName) .null deleteResult clock s
        deleteFrom stub (k + 1) rest s)

/-- The handler `deleteObjects` from the click to its first `await`. The loop
runs over the `createdObjects` of the state in which the handler is invoked. -/
def startDeleteObjects (stub : Nat → Outcome) (s : State) : Run :=
  deleteFrom stub 0 s.createdObjects s

/-- The state a handler in progress has left. -/
def Run.state : Run → State
  | .done s => s
  | .awaiting s _ => s

/-- The component at some moment of a session: its state, and the handlers
that are suspended at an `await`, each as the rest of its body. -/
structure Config where
  state : State
  inFlight : List (State → Run)

def initialConfig : Config := { state := initialState, inFlight := [] }

/-- What can happen next in a session: the user picks a file, clicks Process
Document, Cancel, Process Another Document or Delete Objects, or the promise
awaited by the `i`-th suspended handler settles. A click carries the part of
the environment its handler will meet. -/
inductive Event where
  | selectFile (picked : Option File) : Event
  | clickProcess (env : RunEnv) : Event
  | clickCancel : Event
  | clickReset : Event
  | clickDelete (stub : Nat → Outcome) : Event
  | settle (i : Nat) : Event

/-- A handler was started or resumed and ran to its next `await` or to its
end: its state is the new state, and it joins the suspended handlers when it
is not done. -/
def Config.after (r : Run) (others : List (State → Run)) : Config :=
  match r with
  | .done s => { state := s, inFlight := others }
  | .awaiting s resume => { state := s, inFlight := others ++ [resume] }

/-- The promise awaited by the `i`-th suspended handler settles: the handler
leaves the suspended ones and runs on, from the current state. -/
def Config.settle (i : Nat) (c : Config) : Config :=
  match c.inFlight.get? i with
  | none => c
  | some resume => Config.after (resume c.state) (c.inFlight.eraseIdx i)

/-- One event: the handler it invokes or resumes runs up to its next `await`.
Handlers in flight may overlap; between two events nothing else runs. -/
def Event.fire : Event → Config → Config
  | .selectFile picked, c => { c with state := handleFileSelect picked c.state }
  | .clickProcess env, c => Config.after (startProcessDocument env c.state) c.inFlight
  | .clickCancel, c => { c with state := cancelClick c.state }
  | .clickReset, c => { c with state := resetApp c.state }
  | .clickDelete stub, c => Config.after (startDeleteObjects stub c.state) c.inFlight
  | .settle i, c => c.settle i

/-- Whether the page offers the event in state `s`: the file input and the
Process Document button are rendered in step 1 (the button when a file is
selected), Cancel in step 2, the two other buttons in step 3 (lines 249-409);
a promise can settle at any time. -/
def Event.offered : Event → State → Bool
  | .selectFile _, s => s.currentStep == 1
  | .clickProcess _, s => s.currentStep == 1 && s.file.isSome
  | .clickCancel, s => s.currentStep == 2
  | .clickReset, s => s.currentStep == 3
  | .clickDelete _, s => s.currentStep == 3
  | .settle _, _ => true

/-- The configuration after a sequence of events. -/
def play (events : List Event) (c : Config) : Config :=
  events.foldl (fun c e => e.fire c) c

/-- Whether the page offers each event of the sequence at the moment it
happens. -/
def allOffered : List Event → Config → Bool
  | [], _ => true
  | e :: rest, c => e.offered c.state && allOffered rest (e.fire c)

/-- A 2xx response: `response.ok` is true. -/
def Outcome.is2xx : Outcome → Bool
  | .responded true _ _ => true
  | _ => false

/-- Whether `result.text_value` can be read from the body of a response. -/
def Outcome.hasReadableBody : Outcome → Bool
  | .responded _ .null _ => false
  | .responded _ .undefined _ => false
  | .responded _ _ _ => true
  | .rejected _ => false

/-- One upload-to-summary attempt of a session: the user picks `file`, clicks
Process Document against `env`, and afterwards clicks Process Another
Document when `resetAfter` is set. -/
structure Round where
  file : File
  env : RunEnv
  resetAfter : Bool

/-- The round meets a readable file and three 2xx responses, the last with a
body from which `text_value` can be read. -/
def Round.completes (r : Round) : Bool :=
  r.file.text.isSome && r.env.ingest.is2xx && r.env.prompt.is2xx && r.env.result.is2xx
    && r.env.result.hasReadableBody

def Round.play (r : Round) (s : State) : State :=
  let s := handleFileSelect (some r.file) s
  let s := processDocument r.env s
  if r.resetAfter then resetApp s else s

def playRounds (rounds : List Round) (s : State) : State :=
  rounds.foldl (fun s r => r.play s) s

/-! ## Notions used to state the properties -/

/-- The state in which the `try` block of `processDocument` starts. -/
def enterProcessing (s : State) : State :=
  { s with currentStep := 2, isProcessing := true, progress := 0, error := "" }

/-- Whether a response arrived, whatever its status. -/
def Outcome.isResponse : Outcome → Bool
  | .rejected _ => false
  | .responded _ _ _ => true

/-- The entry `logApiCall` writes for a call, when the source reaches its
`logApiCall`: that is when a response arrived. -/
def Exchange.logged (e : Exchange) : Option LogEntry :=
  match e.outcome with
  | .rejected _ => none
  | .responded _ body clock =>
    some { timestamp := clock.iso, method := e.request.method, url := e.request.url,
           data := e.request.payload.getD .null, response := body, id := clock.now }

/-- The `Date.now()` reading under which a call is logged. -/
def Exchange.loggedAt (e : Exchange) : Option Nat :=
  match e.outcome with
  | .rejected _ => none
  | .responded _ _ clock => some clock.now

def deleteRequest (objectName : String) : Request :=
  { method := "DELETE", url := deleteUrl objectName, payload := none }

/-- The calls the deletion loop makes over `names`, the first being the
`k`-th of the invocation: it stops after the first rejection. -/
def deleteExchanges (stub : Nat → Outcome) : Nat → List String → List Exchange
  | _, [] => []
  | k, objectName :: rest =>
    { request := deleteRequest objectName, outcome := stub k } ::
      (match stub k with
       | .rejected _ => []
       | .responded _ _ _ => deleteExchanges stub (k + 1) rest)

/-- The message of the first rejection the deletion loop meets, if any. -/
def deleteRejection (stub : Nat → Outcome) : Nat → List String → Option String
  | _, [] => none
  | k, _ :: rest =>
    match stub k with
    | .rejected message => some message
    | .responded _ _ _ => deleteRejection stub (k + 1) rest

/-- The state after the calls `new` were made and logged. -/
def afterCalls (new : List Exchange) (s : State) : State :=
  { s with sent := s.sent ++ new, apiLogs := s.apiLogs ++ new.filterMap Exchange.logged }

/-- The remote calls made between the state `s` and the later state `s'`. -/
def callsSince (s s' : State) : List Exchange := s'.sent.drop s.sent.length

/-- The `id` fields of the audit log, in insertion order. -/
def logIds (s : State) : List Nat := s.apiLogs.map LogEntry.id

/-- The relation between `progress` and `currentStep` that every segment of
every handler keeps: in step 2 `progress` is not 100. -/
def ProgressInv (s : State) : Prop :=
  s.currentStep = 1 ∨ s.currentStep = 3 ∨ (s.currentStep = 2 ∧ s.progress ≠ 100)

/-- What a segment that takes the state `s` to `s'` guarantees: it keeps
`ProgressInv`, and when it brings `progress` to 100 it sets `currentStep` to
3. -/
def ProgressStep (s s' : State) : Prop :=
  (ProgressInv s → ProgressInv s') ∧
  (s'.progress = 100 → s.progress ≠ 100 → s'.currentStep = 3)

/-- A handler in progress all of whose remaining segments satisfy
`ProgressStep`, whatever the state they are resumed in. -/
inductive Run.Safe : Run → Prop where
  | done (s : State) : Run.Safe (.done s)
  | awaiting (s : State) (resume : State → Run)
      (hstep : ∀ s', ProgressStep s' (resume s').state)
      (hsafe : ∀ s', Run.Safe (resume s')) :
      Run.Safe (.awaiting s resume)

/-- The rest of a handler body all of whose segments satisfy `ProgressStep`. -/
def SafeResume (resume : State → Run) : Prop :=
  ∀ s, ProgressStep s (resume s).state ∧ Run.Safe (resume s)

/-- The invariant of a session. -/
def Config.Safe (c : Config) : Prop :=
  ProgressInv c.state ∧ ∀ resume ∈ c.inFlight, SafeResume resume

/-! ## Sample inputs -/

def sampleFile : File := { name := "notes.txt", size := 11, text := some "hello world" }

def sampleClock (t : Nat) : Clock := { iso := "2025-07-09T06:26:48.700Z", now := t }

def okBody : Val := .obj [("status", .str "ok")]

def summaryBody : Val := .obj [("text_value", .str "• topic one\n• topic two")]

/-- A remote service that answers every call of a run with 2xx. -/
def okEnv : RunEnv :=
  { engine := v8,
    ingest := .responded true okBody (sampleClock 1000),
    prompt := .responded true okBody (sampleClock 2000),
    result := .responded true summaryBody (sampleClock 3000) }

/-- The initial state after the user picked `sampleFile`. -/
def readyState : State := handleFileSelect (some sampleFile) initialState

/-- A remote service that answers the `input_data` call with a non-2xx
response carrying a `message`. -/
def ingestFailsEnv : RunEnv :=
  { okEnv with
    ingest := .responded false (.obj [("message", .str "quota exceeded")]) (sampleClock 1000) }

/-- A remote service that answers the `input_data` call with a non-2xx
response whose `message` is the number 0. -/
def zeroMessageEnv : RunEnv :=
  { okEnv with
    ingest := .responded false (.obj [("message", .num "0")]) (sampleClock 1000) }

/-- A remote service that answers the `input_data` call with a non-2xx
response whose body is `null`. -/
def nullBodyEnv : RunEnv :=
  { okEnv with ingest := .responded false .null (sampleClock 1000) }

/-- A remote service that answers the `input_data` call with a non-2xx
response whose `message` is an object with an own `toString`. -/
def unconvertibleMessageEnv : RunEnv :=
  { okEnv with
    ingest := .responded false (.obj [("message", .obj [("toString", .num "1")])])
      (sampleClock 1000) }

/-- A remote service that answers the two POST calls with 2xx and the GET
call with a non-2xx response. -/
def resultFailsEnv : RunEnv :=
  { okEnv with
    result := .responded false (.obj [("message", .str "not ready")]) (sampleClock 3000) }

/-- A remote service whose first call fails at the transport level. -/
def transportFailsEnv : RunEnv :=
  { okEnv with ingest := .rejected "Failed to fetch" }

/-- A remote service that answers with 2xx so fast that the three responses
are logged within one millisecond: `Date.now()` reads 1000 each time. -/
def sameInstantEnv : RunEnv :=
  { engine := v8,
    ingest := .responded true okBody (sampleClock 1000),
    prompt := .responded true okBody (sampleClock 1000),
    result := .responded true summaryBody (sampleClock 1000) }

/-- The state a completed run leaves: `readyState` after `processDocument`
against `okEnv`. -/
def completedState : State := processDocument okEnv readyState

/-- A remote service that rejects the first DELETE call (say the network is
down) and would answer the later ones with 2xx. -/
def firstDeleteRejected : Nat → Outcome
  | 0 => .rejected "Failed to fetch"
  | k + 1 => .responded true okBody (sampleClock (4000 + k))

/-- A remote service that answers the first DELETE call with a non-2xx
response and the later ones with 2xx. -/
def firstDeleteRefused : Nat → Outcome
  | 0 => .responded false (.obj [("message", .str "not found")]) (sampleClock 4000)
  | k + 1 => .responded true okBody (sampleClock (4001 + k))

/-- A remote service that answers every DELETE call with 2xx. -/
def okDeletes : Nat → Outcome := fun _ => .responded true okBody (sampleClock 4000)

/-- A session: the user picks a file and clicks Process Document, the run
goes through its four awaits against a service that answers 2xx, then the
user clicks Delete Objects and the two deletions go through. -/
def deleteAfterRunSession : List Event :=
  [.selectFile (some sampleFile), .clickProcess okEnv, .settle 0, .settle 0, .settle 0, .settle 0,
   .clickDelete okDeletes, .settle 0, .settle 0]

/-- A session with two overlapping runs: the user starts a run against a
service that answers 2xx, clicks Cancel while it reads the file, and starts
a second run, whose `input_data` call will get a non-2xx response. The second
run reads the file and issues its call; then the first run goes through its
four awaits and completes. The response of the second run is still to come. -/
def overlappingRunsSession : List Event :=
  [.selectFile (some sampleFile), .clickProcess okEnv, .clickCancel,
   .clickProcess ingestFailsEnv, .settle 1, .settle 0, .settle 1, .settle 1, .settle 1]

/-- Two rounds against a service that answers 2xx, with a reset after the
first. -/
def twoRounds : List Round :=
  [{ file := sampleFile, env := okEnv, resetAfter := true },
   { file := sampleFile, env := okEnv, resetAfter := false }]

/-! ## Lemmas on the two presentations of processDocument -/

theorem complete_startProcessDocument (env : RunEnv) (s : State) :
    (startProcessDocument env s).complete = processDocument env s := by
  unfold startProcessDocument processDocument
  cases hf : s.file with
  | none => rfl
  | some file =>
    simp only [Run.complete, resumeAfterRead, tryBlock]
    cases readFileContent file with
    | error message => rfl
    | ok fileContent =>
      simp only [Run.complete, resumeAfterIngest, ingestDocument]
      cases env.ingest with
      | rejected message => rfl
      | responded ok body clock =>
        cases ok with
        | false => rfl
        | true =>
          simp only [Run.complete, resumeAfterPrompt, generateSummary]
          cases env.prompt with
          | rejected message => rfl
          | responded ok body clock =>
            cases ok with
            | false => rfl
            | true =>
              simp only [Run.complete, resumeAfterResult, retrieveSummary]
              cases env.result with
              | rejected message => rfl
              | responded ok body clock =>
                cases ok with
                | false => rfl
                | true =>
                  simp only [Bool.not_true, Bool.false_eq_true, if_false]
                  cases Val.getProp body "text_value" <;> rfl

/-! ## Lemmas on Cancel during a run -/

theorem resumeAfterResult_cancelClick (env : RunEnv) (s : State) :
    (resumeAfterResult env s).complete = (resumeAfterResult env (cancelClick s)).complete := by
  unfold resumeAfterResult
  cases env.result with
  | rejected message => rfl
  | responded ok body clock =>
    cases ok with
    | false => rfl
    | true =>
      simp only [Bool.not_true, Bool.false_eq_true, if_false]
      cases Val.getProp body "text_value" <;> rfl

theorem resumeAfterResult_cancelAt (env : RunEnv) (n : Nat) (s : State) :
    (resumeAfterResult env s).completeCancelAt n = (resumeAfterResult env s).complete := by
  unfold resumeAfterResult
  cases env.result with
  | rejected message => cases n <;> rfl
  | responded ok body clock =>
    cases ok with
    | false => cases n <;> rfl
    | true =>
      simp only [Bool.not_true, Bool.false_eq_true, if_false]
      cases Val.getProp body "text_value" <;> cases n <;> rfl

theorem resumeAfterPrompt_cancelClick (env : RunEnv) (s : State) :
    (resumeAfterPrompt env s).complete = (resumeAfterPrompt env (cancelClick s)).complete := by
  unfold resumeAfterPrompt
  cases env.prompt with
  | rejected message => rfl
  | responded ok body clock =>
    cases ok with
    | false => rfl
    | true =>
      simp only [Run.complete]
      exact resumeAfterResult_cancelClick env _

theorem resumeAfterPrompt_cancelAt (env : RunEnv) (n : Nat) (s : State) :
    (resumeAfterPrompt env s).completeCancelAt n = (resumeAfterPrompt env s).complete := by
  unfold resumeAfterPrompt
  cases env.prompt with
  | rejected message => cases n <;> rfl
  | responded ok body clock =>
    cases ok with
    | false => cases n <;> rfl
    | true =>
      cases n with
      | zero =>
        simp only [Run.completeCancelAt, Run.complete]
        exact (resumeAfterResult_cancelClick env _).symm
      | succ n =>
        simp only [Run.completeCancelAt, Run.complete]
        exact resumeAfterResult_cancelAt env n _

theorem resumeAfterIngest_cancelClick (env : RunEnv) (fileContent : String) (s : State) :
    (resumeAfterIngest env fileContent s).complete
      = (resumeAfterIngest env fileContent (cancelClick s)).complete := by
  unfold resumeAfterIngest
  cases env.ingest with
  | rejected message => rfl
  | responded ok body clock =>
    cases ok with
    | false => rfl
    | true =>
      simp only [Run.complete]
      exact resumeAfterPrompt_cancelClick env _

theorem resumeAfterIngest_cancelAt (env : RunEnv) (fileContent : String) (n : Nat) (s : State) :
    (resumeAfterIngest env fileContent s).completeCancelAt n
      = (resumeAfterIngest env fileContent s).complete := by
  unfold resumeAfterIngest
  cases env.ingest with
  | rejected message => cases n <;> rfl
  | responded ok body clock =>
    cases ok with
    | false => cases n <;> rfl
    | true =>
      cases n with
      | zero =>
        simp only [Run.completeCancelAt, Run.complete]
        exact (resumeAfterPrompt_cancelClick env _).symm
      | succ n =>
        simp only [Run.completeCancelAt, Run.complete]
        exact resumeAfterPrompt_cancelAt env n _

theorem resumeAfterRead_cancelClick (env : RunEnv) (file : File) (s : State) :
    (resumeAfterRead env file s).complete = (resumeAfterRead env file (cancelClick s)).complete := by
  unfold resumeAfterRead
  cases readFileContent file with
  | error message => rfl
  | ok fileContent =>
    simp only [Run.complete]
    exact resumeAfterIngest_cancelClick env fileContent _

theorem resumeAfterRead_cancelAt (env : RunEnv) (file : File) (n : Nat) (s : State) :
    (resumeAfterRead env file s).completeCancelAt n = (resumeAfterRead env file s).complete := by
  unfold resumeAfterRead
  cases readFileContent file with
  | error message => cases n <;> rfl
  | ok fileContent =>
    cases n with
    | zero =>
      simp only [Run.completeCancelAt, Run.complete]
      exact (resumeAfterIngest_cancelClick env fileContent _).symm
    | succ n =>
      simp only [Run.completeCancelAt, Run.complete]
      exact resumeAfterIngest_cancelAt env fileContent n _

/-- A click on Cancel during a run does not change the state the run ends in. -/
theorem cancelAt_eq_processDocument (n : Nat) (env : RunEnv) (s : State) :
    processDocumentCancelAt n env s = processDocument env s := by
  rw [← complete_startProcessDocument]
  unfold processDocumentCancelAt startProcessDocument
  cases s.file with
  | none => cases n <;> rfl
  | some file =>
    cases n with
    | zero =>
      simp only [Run.completeCancelAt, Run.complete]
      exact (resumeAfterRead_cancelClick env file _).symm
    | succ n =>
      simp only [Run.completeCancelAt, Run.complete]
      exact resumeAfterRead_cancelAt env file n _

/-! ## Lemmas on failure messages -/

theorem append_ne_empty (a b : String) (ha : a ≠ "") : a ++ b ≠ "" := by
  intro h
  apply ha
  have hdata : (a ++ b).data = [] := by rw [h]
  rw [String.data_append] at hdata
  exact String.ext (List.append_eq_nil.mp hdata).1

theorem failureMessage_nullish (engine : Engine) (name heading base : String) (result : Val)
    (hm : result.getProp "message" = .error base) :
    failureMessage engine name heading result = engine.nullishAccess name base "message" := by
  simp [failureMessage, hm]

theorem failureMessage_falsy (engine : Engine) (name heading : String) (result message : Val)
    (hm : result.getProp "message" = .ok message) (hfalsy : message.truthy = false) :
    failureMessage engine name heading result = heading ++ "Unknown error" := by
  simp [failureMessage, hm, Val.orElse, hfalsy, Val.render]

theorem failureMessage_truthy (engine : Engine) (name heading text : String)
    (result message : Val)
    (hm : result.getProp "message" = .ok message) (htruthy : message.truthy = true)
    (htext : message.render = some text) :
    failureMessage engine name heading result = heading ++ text := by
  simp [failureMessage, hm, Val.orElse, htruthy, htext]

theorem failureMessage_unconvertible (engine : Engine) (name heading : String)
    (result message : Val)
    (hm : result.getProp "message" = .ok message) (htruthy : message.truthy = true)
    (htext : message.render = none) :
    failureMessage engine name heading result = engine.notPrimitive := by
  simp [failureMessage, hm, Val.orElse, htruthy, htext]

theorem failureMessage_string (engine : Engine) (name heading : String) (result : Val)
    (m : String) (hm : result.getProp "message" = .ok (.str m)) :
    ∃ pre post, failureMessage engine name heading result = pre ++ m ++ post := by
  by_cases hempty : m = ""
  · exact ⟨failureMessage engine name heading result, "", by simp [hempty]⟩
  · refine ⟨heading, "", ?_⟩
    simp [failureMessage, hm, Val.orElse, Val.truthy, hempty, Val.render]

theorem failureMessage_ne_empty (engine : Engine) (name heading : String) (result : Val)
    (hheading : heading ≠ "")
    (hnullish : ∀ base key, engine.nullishAccess name base key ≠ "")
    (hprimitive : engine.notPrimitive ≠ "") :
    failureMessage engine name heading result ≠ "" := by
  unfold failureMessage
  cases result.getProp "message" with
  | error base => exact hnullish base "message"
  | ok message =>
    simp only []
    cases (message.orElse (.str "Unknown error")).render with
    | none => exact hprimitive
    | some text => exact append_ne_empty _ _ hheading

/-! ## Lemmas on the outcomes of a run -/

theorem processDocument_of_file (env : RunEnv) (s : State) (file : File) (hfile : s.file = some file) :
    processDocument env s = settle (tryBlock env file (enterProcessing s)) := by
  unfold processDocument enterProcessing
  split
  · rename_i h
    rw [hfile] at h
    cases h
  · rename_i f h
    rw [hfile] at h
    cases h
    rfl

theorem tryBlock_of_text (env : RunEnv) (s : State) (file : File) (content : String)
    (hcontent : file.text = some content) :
    tryBlock env file s = ingestDocument env content { s with progress := 20 } := by
  unfold tryBlock readFileContent
  rw [hcontent]

/-! ## Lemmas on the deletion loop -/

theorem deleteLoop_eq (stub : Nat → Outcome) (names : List String) :
    ∀ (k : Nat) (s : State), deleteLoop stub k names s =
      match deleteRejection stub k names with
      | none => .normal (afterCalls (deleteExchanges stub k names) s)
      | some message => .thrown message (afterCalls (deleteExchanges stub k names) s) := by
  induction names with
  | nil =>
    intro k s
    simp [deleteLoop, deleteRejection, deleteExchanges, afterCalls]
  | cons objectName rest ih =>
    intro k s
    unfold deleteLoop deleteRejection deleteExchanges
    cases hk : stub k with
    | rejected message =>
      simp [afterCalls, fetch, Exchange.logged, hk, deleteRequest]
    | responded ok body clock =>
      simp only [ih]
      cases deleteRejection stub (k + 1) rest <;>
        simp [afterCalls, fetch, logApiCall, Exchange.logged, hk, deleteRequest]

theorem deleteObjects_sent (stub : Nat → Outcome) (s : State) :
    (deleteObjects stub s).sent = s.sent ++ deleteExchanges stub 0 s.createdObjects := by
  unfold deleteObjects
  rw [deleteLoop_eq]
  cases deleteRejection stub 0 s.createdObjects <;> rfl

theorem deleteObjects_apiLogs (stub : Nat → Outcome) (s : State) :
    (deleteObjects stub s).apiLogs =
      s.apiLogs ++ (deleteExchanges stub 0 s.createdObjects).filterMap Exchange.logged := by
  unfold deleteObjects
  rw [deleteLoop_eq]
  cases deleteRejection stub 0 s.createdObjects <;> rfl

theorem deleteObjects_createdObjects (stub : Nat → Outcome) (s : State) :
    (deleteObjects stub s).createdObjects =
      match deleteRejection stub 0 s.createdObjects with
      | none => []
      | some _ => s.createdObjects := by
  unfold deleteObjects
  rw [deleteLoop_eq]
  cases deleteRejection stub 0 s.createdObjects <;> rfl

theorem deleteExchanges_of_responses (stub : Nat → Outcome) (names : List String) :
    ∀ k : Nat, (∀ j, j < names.length → (stub (k + j)).isResponse = true) →
      deleteRejection stub k names = none ∧
      (deleteExchanges stub k names).map Exchange.request = names.map deleteRequest ∧
      ((deleteExchanges stub k names).filterMap Exchange.logged).length = names.length := by
  induction names with
  | nil => intro k _; simp [deleteRejection, deleteExchanges]
  | cons objectName rest ih =>
    intro k h
    have h0 := h 0 (by simp)
    have hrest := ih (k + 1) (fun j hj => by
      have := h (j + 1) (by simpa using hj)
      rwa [show k + (j + 1) = k + 1 + j by omega] at this)
    unfold deleteRejection deleteExchanges
    cases hk : stub k with
    | rejected message => simp [hk, Outcome.isResponse] at h0
    | responded ok body clock =>
      simp [hrest.1, hrest.2.1, hrest.2.2, Exchange.logged, hk]

theorem deleteExchanges_of_rejection (stub : Nat → Outcome) (names : List String) :
    ∀ (k i : Nat) (message : String), i < names.length →
      (∀ j, j < i → (stub (k + j)).isResponse = true) → stub (k + i) = .rejected message →
      deleteRejection stub k names = some message ∧
      (deleteExchanges stub k names).map Exchange.request = (names.take (i + 1)).map deleteRequest ∧
      ((deleteExchanges stub k names).filterMap Exchange.logged).length = i := by
  induction names with
  | nil => intro k i message hi; simp at hi
  | cons objectName rest ih =>
    intro k i message hi hbefore hrej
    unfold deleteRejection deleteExchanges
    cases i with
    | zero =>
      have hk : stub k = .rejected message := by simpa using hrej
      simp [hk, Exchange.logged]
    | succ i =>
      have h0 := hbefore 0 (by omega)
      have hrest := ih (k + 1) i message (by simpa using hi)
        (fun j hj => by
          have := hbefore (j + 1) (by omega)
          rwa [show k + (j + 1) = k + 1 + j by omega] at this)
        (by rwa [show k + (i + 1) = k + 1 + i by omega] at hrej)
      cases hk : stub k with
      | rejected m => simp [hk, Outcome.isResponse] at h0
      | responded ok body clock =>
        simp [hrest.1, hrest.2.1, hrest.2.2, Exchange.logged, hk]

/-! ## Lemmas on the record of calls and the audit log -/

theorem logged_ids (new : List Exchange) :
    (new.filterMap Exchange.logged).map LogEntry.id = new.filterMap Exchange.loggedAt := by
  induction new with
  | nil => rfl
  | cons e rest ih =>
    obtain ⟨request, outcome⟩ := e
    cases outcome with
    | rejected message => simpa [Exchange.logged, Exchange.loggedAt] using ih
    | responded ok body clock => simpa [Exchange.logged, Exchange.loggedAt] using ih

theorem logged_length (new : List Exchange) :
    (new.filterMap Exchange.logged).length
      = (new.filter (fun e => e.outcome.isResponse)).length := by
  induction new with
  | nil => rfl
  | cons e rest ih =>
    obtain ⟨request, outcome⟩ := e
    cases outcome with
    | rejected message => simpa [Exchange.logged, Outcome.isResponse] using ih
    | responded ok body clock => simpa [Exchange.logged, Outcome.isResponse] using ih

theorem processDocument_calls (env : RunEnv) (s : State) :
    ∃ new, (processDocument env s).sent = s.sent ++ new ∧
      (processDocument env s).apiLogs = s.apiLogs ++ new.filterMap Exchange.logged := by
  unfold processDocument
  cases s.file with
  | none => exact ⟨[], by simp, by simp⟩
  | some file =>
    simp only [tryBlock]
    cases readFileContent file with
    | error message => exact ⟨[], by simp [settle], by simp [settle]⟩
    | ok fileContent =>
      simp only [ingestDocument]
      cases hingest : env.ingest with
      | rejected message =>
        exact ⟨[_], by simp [settle, fetch]; rfl, by simp [settle, fetch, Exchange.logged, hingest]⟩
      | responded ok body clock =>
        cases ok with
        | false =>
          exact ⟨[_], by simp [settle, fetch, logApiCall]; rfl,
            by simp [settle, fetch, logApiCall, Exchange.logged, hingest]⟩
        | true =>
          simp only [generateSummary, Bool.not_true, Bool.false_eq_true, if_false]
          cases hprompt : env.prompt with
          | rejected message =>
            exact ⟨[_, _], by simp [settle, fetch, logApiCall]; exact ⟨rfl, rfl⟩,
              by simp [settle, fetch, logApiCall, Exchange.logged, hingest, hprompt]⟩
          | responded ok body clock =>
            cases ok with
            | false =>
              exact ⟨[_, _], by simp [settle, fetch, logApiCall]; exact ⟨rfl, rfl⟩,
                by simp [settle, fetch, logApiCall, Exchange.logged, hingest, hprompt]⟩
            | true =>
              simp only [retrieveSummary, Bool.not_true, Bool.false_eq_true, if_false]
              cases hresult : env.result with
              | rejected message =>
                exact ⟨[_, _, _], by simp [settle, fetch, logApiCall]; exact ⟨rfl, rfl, rfl⟩,
                  by simp [settle, fetch, logApiCall, Exchange.logged, hingest, hprompt, hresult]⟩
              | responded ok body clock =>
                cases ok with
                | false =>
                  exact ⟨[_, _, _], by simp [settle, fetch, logApiCall]; exact ⟨rfl, rfl, rfl⟩,
                    by simp [settle, fetch, logApiCall, Exchange.logged, hingest, hprompt, hresult]⟩
                | true =>
                  simp only [Bool.not_true, Bool.false_eq_true, if_false]
                  cases Val.getProp body "text_value" with
                  | error typeError =>
                    exact ⟨[_, _, _], by simp [settle, fetch, logApiCall]; exact ⟨rfl, rfl, rfl⟩,
                      by simp [settle, fetch, logApiCall, Exchange.logged, hingest, hprompt, hresult]⟩
                  | ok textValue =>
                    exact ⟨[_, _, _], by simp [settle, fetch, logApiCall]; exact ⟨rfl, rfl, rfl⟩,
                      by simp [settle, fetch, logApiCall, Exchange.logged, hingest, hprompt, hresult]⟩

/-! ## Lemmas on progress -/

theorem progressStep_of_step1 (s s' : State) (hstep : s'.currentStep = 1)
    (hprogress : s'.progress = s.progress) : ProgressStep s s' :=
  ⟨fun _ => Or.inl hstep, fun h100 hne => absurd (hprogress ▸ h100) hne⟩

theorem progressStep_of_step3 (s s' : State) (hstep : s'.currentStep = 3) : ProgressStep s s' :=
  ⟨fun _ => Or.inr (Or.inl hstep), fun _ _ => hstep⟩

theorem progressStep_of_step2 (s s' : State) (hstep : s'.currentStep = 2)
    (hprogress : s'.progress ≠ 100) : ProgressStep s s' :=
  ⟨fun _ => Or.inr (Or.inr ⟨hstep, hprogress⟩), fun h100 _ => absurd h100 hprogress⟩

theorem progressStep_of_checkpoint (s s' : State) (hstep : s'.currentStep = s.currentStep)
    (hprogress : s'.progress ≠ 100) : ProgressStep s s' := by
  refine ⟨fun hinv => ?_, fun h100 _ => absurd h100 hprogress⟩
  rcases hinv with h | h | h
  · exact Or.inl (hstep.trans h)
  · exact Or.inr (Or.inl (hstep.trans h))
  · exact Or.inr (Or.inr ⟨hstep.trans h.1, hprogress⟩)

theorem progressStep_of_frame (s s' : State) (hstep : s'.currentStep = s.currentStep)
    (hprogress : s'.progress = s.progress) : ProgressStep s s' := by
  refine ⟨fun hinv => ?_, fun h100 hne => absurd (hprogress ▸ h100) hne⟩
  rcases hinv with h | h | h
  · exact Or.inl (hstep.trans h)
  · exact Or.inr (Or.inl (hstep.trans h))
  · exact Or.inr (Or.inr ⟨hstep.trans h.1, fun h100 => h.2 (hprogress ▸ h100)⟩)

/-- A segment resumed in a state with the same `currentStep` and `progress`
guarantees the same. -/
theorem progressStep_congr (a a' c : State) (hstep : a'.currentStep = a.currentStep)
    (hprogress : a'.progress = a.progress) (h : ProgressStep a' c) : ProgressStep a c := by
  refine ⟨fun hinv => h.1 ?_, fun h100 hne => h.2 h100 (fun h' => hne (hprogress ▸ h'))⟩
  rcases hinv with h1 | h1 | h1
  · exact Or.inl (hstep.trans h1)
  · exact Or.inr (Or.inl (hstep.trans h1))
  · exact Or.inr (Or.inr ⟨hstep.trans h1.1, fun h100 => h1.2 (hprogress ▸ h100)⟩)

theorem safe_resumeAfterResult (env : RunEnv) : SafeResume (resumeAfterResult env) := by
  intro s
  unfold resumeAfterResult
  cases env.result with
  | rejected message => exact ⟨progressStep_of_step1 _ _ rfl rfl, Run.Safe.done _⟩
  | responded ok body clock =>
    cases ok with
    | false => exact ⟨progressStep_of_step1 _ _ rfl rfl, Run.Safe.done _⟩
    | true =>
      simp only [Bool.not_true, Bool.false_eq_true, if_false]
      cases Val.getProp body "text_value" with
      | error base => exact ⟨progressStep_of_step1 _ _ rfl rfl, Run.Safe.done _⟩
      | ok textValue => exact ⟨progressStep_of_step3 _ _ rfl, Run.Safe.done _⟩

theorem safe_resumeAfterPrompt (env : RunEnv) : SafeResume (resumeAfterPrompt env) := by
  intro s
  unfold resumeAfterPrompt
  cases env.prompt with
  | rejected message => exact ⟨progressStep_of_step1 _ _ rfl rfl, Run.Safe.done _⟩
  | responded ok body clock =>
    cases ok with
    | false => exact ⟨progressStep_of_step1 _ _ rfl rfl, Run.Safe.done _⟩
    | true =>
      exact ⟨progressStep_of_checkpoint _ _ rfl (show (90 : Nat) ≠ 100 by decide),
        Run.Safe.awaiting _ _ (fun s' => (safe_resumeAfterResult env s').1)
        (fun s' => (safe_resumeAfterResult env s').2)⟩

theorem safe_resumeAfterIngest (env : RunEnv) (fileContent : String) :
    SafeResume (resumeAfterIngest env fileContent) := by
  intro s
  unfold resumeAfterIngest
  cases env.ingest with
  | rejected message => exact ⟨progressStep_of_step1 _ _ rfl rfl, Run.Safe.done _⟩
  | responded ok body clock =>
    cases ok with
    | false => exact ⟨progressStep_of_step1 _ _ rfl rfl, Run.Safe.done _⟩
    | true =>
      exact ⟨progressStep_of_checkpoint _ _ rfl (show (70 : Nat) ≠ 100 by decide),
        Run.Safe.awaiting _ _ (fun s' => (safe_resumeAfterPrompt env s').1)
        (fun s' => (safe_resumeAfterPrompt env s').2)⟩

theorem safe_resumeAfterRead (env : RunEnv) (file : File) :
    SafeResume (resumeAfterRead env file) := by
  intro s
  unfold resumeAfterRead
  cases readFileContent file with
  | error message => exact ⟨progressStep_of_step1 _ _ rfl rfl, Run.Safe.done _⟩
  | ok fileContent =>
    exact ⟨progressStep_of_checkpoint _ _ rfl (show (40 : Nat) ≠ 100 by decide),
      Run.Safe.awaiting _ _ (fun s' => (safe_resumeAfterIngest env fileContent s').1)
        (fun s' => (safe_resumeAfterIngest env fileContent s').2)⟩

theorem safe_startProcessDocument (env : RunEnv) : SafeResume (startProcessDocument env) := by
  intro s
  unfold startProcessDocument
  split
  · exact ⟨progressStep_of_frame _ _ rfl rfl, Run.Safe.done _⟩
  · exact ⟨progressStep_of_step2 _ _ rfl (show (20 : Nat) ≠ 100 by decide),
      Run.Safe.awaiting _ _ (fun s' => (safe_resumeAfterRead env _ s').1)
        (fun s' => (safe_resumeAfterRead env _ s').2)⟩

theorem safe_deleteFrom (stub : Nat → Outcome) (names : List String) :
    ∀ k : Nat, SafeResume (deleteFrom stub k names) := by
  induction names with
  | nil =>
    intro k s
    exact ⟨progressStep_of_step1 _ _ rfl rfl, Run.Safe.done _⟩
  | cons objectName rest ih =>
    intro k s
    unfold deleteFrom
    have hresume : ∀ s' : State,
        ProgressStep s' (match stub k with
          | .rejected message =>
            Run.done { s' with error := "Failed to delete objects: " ++ message }
          | .responded _ deleteResult clock =>
            deleteFrom stub (k + 1) rest
              (logApiCall "DELETE" (deleteUrl objectName) .null deleteResult clock s')).state ∧
        Run.Safe (match stub k with
          | .rejected message =>
            Run.done { s' with error := "Failed to delete objects: " ++ message }
          | .responded _ deleteResult clock =>
            deleteFrom stub (k + 1) rest
              (logApiCall "DELETE" (deleteUrl objectName) .null deleteResult clock s')) := by
      intro s'
      cases stub k with
      | rejected message => exact ⟨progressStep_of_frame _ _ rfl rfl, Run.Safe.done _⟩
      | responded ok body clock =>
        exact ⟨progressStep_congr s'
            (logApiCall "DELETE" (deleteUrl objectName) .null body clock s') _ rfl rfl
            (ih (k + 1) _).1,
          (ih (k + 1) _).2⟩
    exact ⟨progressStep_of_frame _ _ rfl rfl,
      Run.Safe.awaiting _ _ (fun s' => (hresume s').1) (fun s' => (hresume s').2)⟩

theorem safe_startDeleteObjects (stub : Nat → Outcome) : SafeResume (startDeleteObjects stub) :=
  fun s => safe_deleteFrom stub s.createdObjects 0 s

theorem after_safe (r : Run) (others : List (State → Run)) (s : State)
    (hr : ProgressStep s r.state ∧ Run.Safe r) (hinv : ProgressInv s)
    (hothers : ∀ resume ∈ others, SafeResume resume) :
    (Config.after r others).Safe ∧ ProgressStep s (Config.after r others).state := by
  cases r with
  | done s' => exact ⟨⟨hr.1.1 hinv, hothers⟩, hr.1⟩
  | awaiting s' resume =>
    refine ⟨⟨hr.1.1 hinv, fun k hk => ?_⟩, hr.1⟩
    rcases List.mem_append.mp hk with hk | hk
    · exact hothers k hk
    · cases hr.2 with
      | awaiting _ _ hstep hsafe =>
        rw [List.mem_singleton.mp hk]
        exact fun s'' => ⟨hstep s'', hsafe s''⟩

theorem fire_safe (e : Event) (c : Config) (h : c.Safe) :
    (e.fire c).Safe ∧ ProgressStep c.state (e.fire c).state := by
  cases e with
  | selectFile picked =>
    have hstep : ProgressStep c.state (handleFileSelect picked c.state) := by
      cases picked <;> exact progressStep_of_frame _ _ rfl rfl
    exact ⟨⟨hstep.1 h.1, h.2⟩, hstep⟩
  | clickProcess env => exact after_safe _ _ _ (safe_startProcessDocument env c.state) h.1 h.2
  | clickCancel =>
    have hstep : ProgressStep c.state (cancelClick c.state) := progressStep_of_step1 _ _ rfl rfl
    exact ⟨⟨hstep.1 h.1, h.2⟩, hstep⟩
  | clickReset =>
    have hstep : ProgressStep c.state (resetApp c.state) :=
      ⟨fun _ => Or.inl rfl, fun h100 _ => absurd (show (0 : Nat) = 100 from h100) (by decide)⟩
    exact ⟨⟨hstep.1 h.1, h.2⟩, hstep⟩
  | clickDelete stub => exact after_safe _ _ _ (safe_startDeleteObjects stub c.state) h.1 h.2
  | settle i =>
    show (c.settle i).Safe ∧ ProgressStep c.state (c.settle i).state
    unfold Config.settle
    cases hget : c.inFlight.get? i with
    | none => exact ⟨h, progressStep_of_frame _ _ rfl rfl⟩
    | some resume =>
      exact after_safe _ _ _ (h.2 resume (List.get?_mem hget) c.state) h.1
        (fun k hk => h.2 k (List.mem_of_mem_eraseIdx hk))

theorem play_safe (events : List Event) : ∀ c : Config, c.Safe → (play events c).Safe := by
  induction events with
  | nil => exact fun c h => h
  | cons e rest ih => exact fun c h => ih (e.fire c) (fire_safe e c h).1

theorem initialConfig_safe : initialConfig.Safe :=
  ⟨Or.inl rfl, fun _ hk => absurd hk (List.not_mem_nil _)⟩

/-- The segmented `deleteObjects`, run with no other handler in between, is
`deleteObjects`. -/
theorem complete_deleteFrom (stub : Nat → Outcome) (names : List String) :
    ∀ (k : Nat) (s : State), (deleteFrom stub k names s).complete =
      match deleteLoop stub k names s with
      | .normal s =>
        { s with createdObjects := [], summary := .str "", rawData := .null, currentStep := 1 }
      | .thrown message s => { s with error := "Failed to delete objects: " ++ message } := by
  induction names with
  | nil => intro k s; rfl
  | cons objectName rest ih =>
    intro k s
    unfold deleteFrom deleteLoop
    simp only [Run.complete]
    cases stub k with
    | rejected message => rfl
    | responded ok body clock => exact ih (k + 1) _

theorem complete_startDeleteObjects (stub : Nat → Outcome) (s : State) :
    (startDeleteObjects stub s).complete = deleteObjects stub s := by
  unfold startDeleteObjects deleteObjects
  rw [complete_deleteFrom]

/-! ## Lemmas on the ledger across rounds -/

theorem run_createdObjects (r : Round) (s : State) (hfile : s.file = some r.file)
    (hr : r.completes = true) :
    (processDocument r.env s).createdObjects
      = s.createdObjects ++ ["uploaded_document", "document_summary"] := by
  obtain ⟨file, env, resetAfter⟩ := r
  obtain ⟨engine, ingest, prompt, result⟩ := env
  rw [processDocument_of_file _ _ file hfile]
  unfold tryBlock readFileContent
  cases htext : file.text with
  | none => simp [Round.completes, htext] at hr
  | some content =>
    cases ingest with
    | rejected message => simp [Round.completes, Outcome.is2xx] at hr
    | responded ok1 body1 clock1 =>
      cases prompt with
      | rejected message => simp [Round.completes, Outcome.is2xx] at hr
      | responded ok2 body2 clock2 =>
        cases result with
        | rejected message => simp [Round.completes, Outcome.is2xx] at hr
        | responded ok3 body3 clock3 =>
          cases ok1 <;> cases ok2 <;> cases ok3 <;>
            simp [Round.completes, Outcome.is2xx] at hr
          cases body3 <;> simp [Outcome.hasReadableBody] at hr <;>
            simp [ingestDocument, generateSummary, retrieveSummary, settle, fetch, logApiCall,
              enterProcessing, Val.getProp]

theorem play_createdObjects (r : Round) (s : State) (hr : r.completes = true) :
    (r.play s).createdObjects = s.createdObjects ++ ["uploaded_document", "document_summary"] := by
  have hrun := run_createdObjects r (handleFileSelect (some r.file) s) rfl hr
  unfold Round.play
  cases r.resetAfter
  · exact hrun
  · exact hrun

theorem playRounds_createdObjects (rounds : List Round) :
    ∀ s : State, (∀ r ∈ rounds, r.completes = true) →
      (playRounds rounds s).createdObjects = s.createdObjects ++
        (List.replicate rounds.length ["uploaded_document", "document_summary"]).flatten := by
  induction rounds with
  | nil => intro s _; simp [playRounds]
  | cons r rest ih =>
    intro s h
    have hrest := ih (r.play s) (fun q hq => h q (List.mem_cons_of_mem r hq))
    have hr := play_createdObjects r s (h r (List.mem_cons_self r rest))
    show (playRounds rest (r.play s)).createdObjects = _
    rw [hrest, hr]
    simp [List.replicate_succ]

/-! ## The claims -/

/-- C1: for a state with a selected file whose text can be read and an empty
created-object ledger, and a remote service whose three responses are 2xx
(the GET body being a value whose `text_value` can be read), `processDocument`
ends with `currentStep = 3`, `summary` equal to the `text_value` of the GET
response, `progress = 100` and the ledger equal to
`['uploaded_document', 'document_summary']`. -/
theorem C1_processDocument_success (env : RunEnv) (s : State) (file : File) (content : String)
    (ingestBody promptBody resultBody textValue : Val) (c1 c2 c3 : Clock)
    (hfile : s.file = some file) (hcontent : file.text = some content)
    (hfresh : s.createdObjects = [])
    (hingest : env.ingest = .responded true ingestBody c1)
    (hprompt : env.prompt = .responded true promptBody c2)
    (hresult : env.result = .responded true resultBody c3)
    (htext : resultBody.getProp "text_value" = .ok textValue) :
    (processDocument env s).currentStep = 3 ∧
    (processDocument env s).summary = textValue ∧
    (processDocument env s).progress = 100 ∧
    (processDocument env s).createdObjects = ["uploaded_document", "document_summary"] := by
  rw [processDocument_of_file env s file hfile, tryBlock_of_text env _ file content hcontent]
  simp [ingestDocument, generateSummary, retrieveSummary, hingest, hprompt, hresult, htext,
    settle, fetch, logApiCall, enterProcessing, hfresh]

theorem C1_processDocument_success_witness :
    readyState.file = some sampleFile ∧ readyState.createdObjects = [] ∧
    (processDocument okEnv readyState).currentStep = 3 ∧
    (processDocument okEnv readyState).summary = .str "• topic one\n• topic two" ∧
    (processDocument okEnv readyState).progress = 100 ∧
    (processDocument okEnv readyState).createdObjects = ["uploaded_document", "document_summary"] :=
  ⟨rfl, rfl,
    C1_processDocument_success okEnv readyState sampleFile "hello world" okBody okBody summaryBody
      (.str "• topic one\n• topic two") (sampleClock 1000) (sampleClock 2000) (sampleClock 3000)
      rfl rfl rfl rfl rfl rfl rfl⟩

/-- C2, counterexample: the `input_data` response is non-2xx and its body has
a `message` field, the number 0: the error is
`Failed to upload document: Unknown error`, which does not contain the field;
and when the body is `null` there is no `message` field and the error is the
message of the `TypeError` raised by reading it, not the fallback. -/
theorem C2_falsy_message_counterexample :
    (processDocument zeroMessageEnv readyState).error
      = "Failed to upload document: Unknown error" ∧
    (¬ ∃ pre post : String, (processDocument zeroMessageEnv readyState).error
      = pre ++ "0" ++ post) ∧
    (processDocument nullBodyEnv readyState).error
      = "Cannot read properties of null (reading 'message')" := by
  refine ⟨rfl, ?_, rfl⟩
  rw [show (processDocument zeroMessageEnv readyState).error
    = "Failed to upload document: Unknown error" from rfl]
  rintro ⟨pre, post, h⟩
  have hmem : '0' ∈ ("Failed to upload document: Unknown error" : String).data := by
    rw [h]
    simp [String.data_append]
  revert hmem
  decide

/-- C2, amended: when the run reaches the POST `input_data` call and its
response is non-2xx, `processDocument` issues that call only (no
`apply_prompt`, no `return_data`), ends with `currentStep = 1`, leaves the
ledger unchanged and sets `error` to the message of the error thrown: when
the `message` of the body is truthy, `Failed to upload document: ` followed
by its rendering (so a string message is contained in it); when it is absent
or falsy (empty string, 0, false, null), the fallback
`Failed to upload document: Unknown error`; when the body is `null`, or the
message is an object that cannot be converted to a string, the message of
the `TypeError` this raises. -/
theorem C2_processDocument_ingest_failure (env : RunEnv) (s : State) (file : File)
    (content : String) (body : Val) (clock : Clock)
    (hfile : s.file = some file) (hcontent : file.text = some content)
    (hingest : env.ingest = .responded false body clock) :
    (processDocument env s).sent = s.sent ++
      [{ request := { method := "POST", url := ingestUrl, payload := some (ingestData content) },
         outcome := env.ingest }] ∧
    (processDocument env s).currentStep = 1 ∧
    (processDocument env s).createdObjects = s.createdObjects ∧
    (∀ message text, body.getProp "message" = .ok message → message.truthy = true →
      message.render = some text →
      (processDocument env s).error = "Failed to upload document: " ++ text) ∧
    (∀ m, body.getProp "message" = .ok (.str m) →
      ∃ pre post, (processDocument env s).error = pre ++ m ++ post) ∧
    (∀ message, body.getProp "message" = .ok message → message.truthy = false →
      (processDocument env s).error = "Failed to upload document: Unknown error") ∧
    (∀ message, body.getProp "message" = .ok message → message.truthy = true →
      message.render = none →
      (processDocument env s).error = env.engine.notPrimitive) ∧
    (∀ base, body.getProp "message" = .error base →
      (processDocument env s).error = env.engine.nullishAccess "ingestResult" base "message") := by
  have herror : (processDocument env s).error
      = failureMessage env.engine "ingestResult" "Failed to upload document: " body := by
    rw [processDocument_of_file env s file hfile, tryBlock_of_text env _ file content hcontent]
    simp [ingestDocument, hingest, settle]
  refine ⟨?_, ?_, ?_, ?_, ?_, ?_, ?_, ?_⟩
  · rw [processDocument_of_file env s file hfile, tryBlock_of_text env _ file content hcontent]
    simp [ingestDocument, hingest, settle, fetch, logApiCall, enterProcessing]
  · rw [processDocument_of_file env s file hfile, tryBlock_of_text env _ file content hcontent]
    simp [ingestDocument, hingest, settle]
  · rw [processDocument_of_file env s file hfile, tryBlock_of_text env _ file content hcontent]
    simp [ingestDocument, hingest, settle, fetch, logApiCall, enterProcessing]
  · intro message text hm htruthy htext
    rw [herror]
    exact failureMessage_truthy _ _ _ text body message hm htruthy htext
  · intro m hm
    rw [herror]
    exact failureMessage_string _ _ _ body m hm
  · intro message hm hfalsy
    rw [herror]
    exact failureMessage_falsy _ _ _ body message hm hfalsy
  · intro message hm htruthy htext
    rw [herror]
    exact failureMessage_unconvertible _ _ _ body message hm htruthy htext
  · intro base hm
    rw [herror]
    exact failureMessage_nullish _ _ _ base body hm

theorem C2_processDocument_ingest_failure_witness :
    (processDocument ingestFailsEnv readyState).sent =
      [{ request := { method := "POST", url := ingestUrl, payload := some (ingestData "hello world") },
         outcome := ingestFailsEnv.ingest }] ∧
    (processDocument ingestFailsEnv readyState).currentStep = 1 ∧
    (processDocument ingestFailsEnv readyState).createdObjects = [] ∧
    (processDocument ingestFailsEnv readyState).error = "Failed to upload document: quota exceeded" ∧
    (processDocument unconvertibleMessageEnv readyState).error
      = "Cannot convert object to primitive value" :=
  have h := C2_processDocument_ingest_failure ingestFailsEnv readyState sampleFile "hello world"
    (.obj [("message", .str "quota exceeded")]) (sampleClock 1000) rfl rfl rfl
  have h' := C2_processDocument_ingest_failure unconvertibleMessageEnv readyState sampleFile
    "hello world" (.obj [("message", .obj [("toString", .num "1")])]) (sampleClock 1000)
    rfl rfl rfl
  ⟨h.1, h.2.1, h.2.2.1, h.2.2.2.1 (.str "quota exceeded") "quota exceeded" rfl rfl rfl,
    h'.2.2.2.2.2.2.1 (.obj [("toString", .num "1")]) rfl rfl rfl⟩

/-- C3: when `file` is null, `processDocument` issues no remote call (the
record of calls, the audit log and the ledger are unchanged), changes neither
`currentStep` nor `progress`, and sets `error` to the non-empty message
`Please select a file first`. -/
theorem C3_processDocument_without_file (env : RunEnv) (s : State) (hfile : s.file = none) :
    (processDocument env s).sent = s.sent ∧
    (processDocument env s).apiLogs = s.apiLogs ∧
    (processDocument env s).createdObjects = s.createdObjects ∧
    (processDocument env s).currentStep = s.currentStep ∧
    (processDocument env s).progress = s.progress ∧
    (processDocument env s).error = "Please select a file first" ∧
    (processDocument env s).error ≠ "" := by
  have h : processDocument env s = { s with error := "Please select a file first" } := by
    unfold processDocument
    split
    · rfl
    · rename_i f hf
      rw [hfile] at hf
      cases hf
  rw [h]
  exact ⟨rfl, rfl, rfl, rfl, rfl, rfl, (by decide : "Please select a file first" ≠ "")⟩

theorem C3_processDocument_without_file_witness :
    initialState.file = none ∧
    (processDocument okEnv initialState).sent = [] ∧
    (processDocument okEnv initialState).currentStep = 1 ∧
    (processDocument okEnv initialState).error = "Please select a file first" :=
  have h := C3_processDocument_without_file okEnv initialState rfl
  ⟨rfl, h.1, h.2.2.2.1, h.2.2.2.2.2.1⟩

/-- C4, counterexample: after a completed run the ledger holds two names; when
the first DELETE call fails at the transport level, `deleteObjects` issues
that one DELETE call only, and leaves the ledger and the summary as they
were. -/
theorem C4_deleteObjects_rejection_counterexample :
    completedState.createdObjects = ["uploaded_document", "document_summary"] ∧
    (callsSince completedState (deleteObjects firstDeleteRejected completedState)).map
        Exchange.request = [deleteRequest "uploaded_document"] ∧
    (deleteObjects firstDeleteRejected completedState).createdObjects
      = ["uploaded_document", "document_summary"] ∧
    (deleteObjects firstDeleteRejected completedState).summary = .str "• topic one\n• topic two" ∧
    (deleteObjects firstDeleteRejected completedState).error
      = "Failed to delete objects: Failed to fetch" :=
  ⟨rfl, rfl, rfl, rfl, rfl⟩

/-- C4, amended: for every ledger, when every DELETE call gets a response
(2xx or non-2xx alike), `deleteObjects` issues exactly one DELETE call per
ledger entry, in ledger order, logs each, and ends with the ledger empty, the
summary cleared and `currentStep = 1`; when the `i`-th call is the first to
be rejected (transport failure or undecodable body), the loop stops there:
the calls made are those for the first `i + 1` entries, the ledger and the
summary are unchanged and `error` is `Failed to delete objects: ` followed by
the message of the rejection. -/
theorem C4_deleteObjects (stub : Nat → Outcome) (s : State) :
    ((∀ j, j < s.createdObjects.length → (stub j).isResponse = true) →
      (deleteObjects stub s).sent.map Exchange.request
        = s.sent.map Exchange.request ++ s.createdObjects.map deleteRequest ∧
      (deleteObjects stub s).apiLogs.length = s.apiLogs.length + s.createdObjects.length ∧
      (deleteObjects stub s).createdObjects = [] ∧
      (deleteObjects stub s).summary = .str "" ∧
      (deleteObjects stub s).currentStep = 1) ∧
    (∀ i message, i < s.createdObjects.length →
      (∀ j, j < i → (stub j).isResponse = true) → stub i = .rejected message →
      (deleteObjects stub s).sent.map Exchange.request
        = s.sent.map Exchange.request ++ (s.createdObjects.take (i + 1)).map deleteRequest ∧
      (deleteObjects stub s).apiLogs.length = s.apiLogs.length + i ∧
      (deleteObjects stub s).createdObjects = s.createdObjects ∧
      (deleteObjects stub s).summary = s.summary ∧
      (deleteObjects stub s).currentStep = s.currentStep ∧
      (deleteObjects stub s).error = "Failed to delete objects: " ++ message) := by
  constructor
  · intro h
    have hall := deleteExchanges_of_responses stub s.createdObjects 0 (by simpa using h)
    have hstate : deleteObjects stub s =
        { afterCalls (deleteExchanges stub 0 s.createdObjects) s with
          createdObjects := [], summary := .str "", rawData := .null, currentStep := 1 } := by
      unfold deleteObjects
      rw [deleteLoop_eq, hall.1]
    refine ⟨?_, ?_, ?_, ?_, ?_⟩
    · rw [deleteObjects_sent, List.map_append, hall.2.1]
    · rw [deleteObjects_apiLogs, List.length_append, hall.2.2]
    all_goals (rw [hstate]; try rfl)
  · intro i message hi hbefore hrej
    have hrejected := deleteExchanges_of_rejection stub s.createdObjects 0 i message hi
      (by simpa using hbefore) (by simpa using hrej)
    have hstate : deleteObjects stub s =
        { afterCalls (deleteExchanges stub 0 s.createdObjects) s with
          error := "Failed to delete objects: " ++ message } := by
      unfold deleteObjects
      rw [deleteLoop_eq, hrejected.1]
    refine ⟨?_, ?_, ?_, ?_, ?_, ?_⟩
    · rw [deleteObjects_sent, List.map_append, hrejected.2.1]
    · rw [deleteObjects_apiLogs, List.length_append, hrejected.2.2]
    all_goals (rw [hstate]; try rfl)

theorem C4_deleteObjects_witness :
    (deleteObjects firstDeleteRefused completedState).sent.map Exchange.request
      = completedState.sent.map Exchange.request ++
        [deleteRequest "uploaded_document", deleteRequest "document_summary"] ∧
    (deleteObjects firstDeleteRefused completedState).createdObjects = [] ∧
    (deleteObjects firstDeleteRefused completedState).summary = .str "" ∧
    (deleteObjects firstDeleteRejected completedState).createdObjects = completedState.createdObjects :=
  have hok := (C4_deleteObjects firstDeleteRefused completedState).1
    (fun j hj => by
      rcases j with _ | _ | j
      · rfl
      · rfl
      · exact absurd hj (show ¬ (j + 2 < 2) by omega))
  have hrej := (C4_deleteObjects firstDeleteRejected completedState).2 0 "Failed to fetch"
    (by decide) (fun j hj => absurd hj (Nat.not_lt_zero j)) rfl
  ⟨hok.1, hok.2.2.1, hok.2.2.2.1, hrej.2.2.1⟩

/-- C5: when the POST `input_data` and POST `apply_prompt` responses are 2xx
and the GET `return_data` response is non-2xx, `processDocument` ends with
the ledger it had at the start followed by `'uploaded_document'` and
`'document_summary'`, with `currentStep = 1`, `error` set to the message of
the error thrown (non-empty, the messages of the engine's `TypeError`s being
non-empty) and `summary` unchanged. -/
theorem C5_processDocument_result_failure (env : RunEnv) (s : State) (file : File)
    (content : String) (ingestBody promptBody resultBody : Val) (c1 c2 c3 : Clock)
    (hfile : s.file = some file) (hcontent : file.text = some content)
    (hingest : env.ingest = .responded true ingestBody c1)
    (hprompt : env.prompt = .responded true promptBody c2)
    (hresult : env.result = .responded false resultBody c3) :
    (processDocument env s).createdObjects
      = s.createdObjects ++ ["uploaded_document", "document_summary"] ∧
    (processDocument env s).currentStep = 1 ∧
    (processDocument env s).error
      = failureMessage env.engine "result" "Failed to retrieve summary: " resultBody ∧
    ((∀ base key, env.engine.nullishAccess "result" base key ≠ "") →
      env.engine.notPrimitive ≠ "" → (processDocument env s).error ≠ "") ∧
    (processDocument env s).summary = s.summary := by
  have herror : (processDocument env s).error
      = failureMessage env.engine "result" "Failed to retrieve summary: " resultBody := by
    rw [processDocument_of_file env s file hfile, tryBlock_of_text env _ file content hcontent]
    simp [ingestDocument, generateSummary, retrieveSummary, hingest, hprompt, hresult, settle]
  refine ⟨?_, ?_, herror, ?_, ?_⟩
  · rw [processDocument_of_file env s file hfile, tryBlock_of_text env _ file content hcontent]
    simp [ingestDocument, generateSummary, retrieveSummary, hingest, hprompt, hresult, settle,
      fetch, logApiCall, enterProcessing]
  · rw [processDocument_of_file env s file hfile, tryBlock_of_text env _ file content hcontent]
    simp [ingestDocument, generateSummary, retrieveSummary, hingest, hprompt, hresult, settle]
  · intro hnullish hprimitive
    rw [herror]
    exact failureMessage_ne_empty _ _ _ _ (by decide) hnullish hprimitive
  · rw [processDocument_of_file env s file hfile, tryBlock_of_text env _ file content hcontent]
    simp [ingestDocument, generateSummary, retrieveSummary, hingest, hprompt, hresult, settle,
      fetch, logApiCall, enterProcessing]

theorem C5_processDocument_result_failure_witness :
    (processDocument resultFailsEnv readyState).createdObjects
      = ["uploaded_document", "document_summary"] ∧
    (processDocument resultFailsEnv readyState).currentStep = 1 ∧
    (processDocument resultFailsEnv readyState).error = "Failed to retrieve summary: not ready" ∧
    (processDocument resultFailsEnv readyState).error ≠ "" ∧
    (processDocument resultFailsEnv readyState).summary = .str "" :=
  have h := C5_processDocument_result_failure resultFailsEnv readyState sampleFile "hello world"
    okBody okBody (.obj [("message", .str "not ready")]) (sampleClock 1000) (sampleClock 2000)
    (sampleClock 3000) rfl rfl rfl rfl rfl
  ⟨h.1, h.2.1, rfl,
    h.2.2.2.1
      (fun base key => append_ne_empty _ _ (append_ne_empty _ _ (append_ne_empty _ _
        (append_ne_empty _ _ (by decide)))))
      (by decide),
    h.2.2.2.2⟩

/-- C6: `resetApp` sets `currentStep` to 1, `file` to null, `summary` to `''`,
`error` to `''` and `progress` to 0, and leaves the ledger, the audit log and
the record of calls as they were; `deleteObjects` after `resetApp` makes the
same remote calls as `deleteObjects` without it. -/
theorem C6_resetApp (stub : Nat → Outcome) (s : State) :
    (resetApp s).currentStep = 1 ∧
    (resetApp s).file = none ∧
    (resetApp s).summary = .str "" ∧
    (resetApp s).error = "" ∧
    (resetApp s).progress = 0 ∧
    (resetApp s).createdObjects = s.createdObjects ∧
    (resetApp s).apiLogs = s.apiLogs ∧
    (resetApp s).sent = s.sent ∧
    (deleteObjects stub (resetApp s)).sent = (deleteObjects stub s).sent ∧
    (deleteObjects stub (resetApp s)).createdObjects = (deleteObjects stub s).createdObjects := by
  refine ⟨rfl, rfl, rfl, rfl, rfl, rfl, rfl, rfl, ?_, ?_⟩
  · rw [deleteObjects_sent, deleteObjects_sent]
    rfl
  · rw [deleteObjects_createdObjects, deleteObjects_createdObjects]
    rfl

/-- C7, counterexample: a run whose `input_data` call fails at the transport
level makes one remote call and appends no entry to the audit log; and a run
whose three responses are logged at the same clock reading leaves three log
entries with the same `id`, so the ids are not strictly increasing. -/
theorem C7_audit_log_counterexample :
    ((callsSince readyState (processDocument transportFailsEnv readyState)).length = 1 ∧
      (processDocument transportFailsEnv readyState).apiLogs = readyState.apiLogs) ∧
    (logIds (processDocument sameInstantEnv readyState) = [1000, 1000, 1000] ∧
      ¬ (logIds (processDocument sameInstantEnv readyState)).Pairwise (· < ·)) :=
  ⟨⟨rfl, rfl⟩, rfl, by
    rw [show logIds (processDocument sameInstantEnv readyState) = [1000, 1000, 1000] from rfl]
    decide⟩

/-- C7, amended: `processDocument` and `deleteObjects` only append to the
record of calls and to the audit log: existing entries are neither changed
nor reordered, and the entries appended are, in order, one for each call that
got a response (2xx or not) and none for a call that was rejected (transport
failure or undecodable body), so the log grows by the number of calls that
got a response; the `id` of an entry is the `Date.now()` reading at which it
is logged, so the ids of the log are strictly increasing exactly when the old
ids followed by these readings are. -/
theorem C7_audit_log (env : RunEnv) (stub : Nat → Outcome) (s : State) :
    ((processDocument env s).sent = s.sent ++ callsSince s (processDocument env s) ∧
      (processDocument env s).apiLogs
        = s.apiLogs ++ (callsSince s (processDocument env s)).filterMap Exchange.logged ∧
      (processDocument env s).apiLogs.length = s.apiLogs.length +
        ((callsSince s (processDocument env s)).filter (fun e => e.outcome.isResponse)).length ∧
      logIds (processDocument env s)
        = logIds s ++ (callsSince s (processDocument env s)).filterMap Exchange.loggedAt ∧
      ((logIds (processDocument env s)).Pairwise (· < ·) ↔
        (logIds s ++ (callsSince s (processDocument env s)).filterMap Exchange.loggedAt).Pairwise
          (· < ·))) ∧
    ((deleteObjects stub s).sent = s.sent ++ callsSince s (deleteObjects stub s) ∧
      (deleteObjects stub s).apiLogs
        = s.apiLogs ++ (callsSince s (deleteObjects stub s)).filterMap Exchange.logged ∧
      (deleteObjects stub s).apiLogs.length = s.apiLogs.length +
        ((callsSince s (deleteObjects stub s)).filter (fun e => e.outcome.isResponse)).length ∧
      logIds (deleteObjects stub s)
        = logIds s ++ (callsSince s (deleteObjects stub s)).filterMap Exchange.loggedAt ∧
      ((logIds (deleteObjects stub s)).Pairwise (· < ·) ↔
        (logIds s ++ (callsSince s (deleteObjects stub s)).filterMap Exchange.loggedAt).Pairwise
          (· < ·))) := by
  have key : ∀ s' : State, (∃ new, s'.sent = s.sent ++ new ∧
      s'.apiLogs = s.apiLogs ++ new.filterMap Exchange.logged) →
      s'.sent = s.sent ++ callsSince s s' ∧
      s'.apiLogs = s.apiLogs ++ (callsSince s s').filterMap Exchange.logged ∧
      s'.apiLogs.length = s.apiLogs.length +
        ((callsSince s s').filter (fun e => e.outcome.isResponse)).length ∧
      logIds s' = logIds s ++ (callsSince s s').filterMap Exchange.loggedAt ∧
      ((logIds s').Pairwise (· < ·) ↔
        (logIds s ++ (callsSince s s').filterMap Exchange.loggedAt).Pairwise (· < ·)) := by
    intro s' h
    obtain ⟨new, hsent, hlogs⟩ := h
    have hnew : callsSince s s' = new := by
      unfold callsSince
      rw [hsent, List.drop_left]
    have hids : logIds s' = logIds s ++ new.filterMap Exchange.loggedAt := by
      unfold logIds
      rw [hlogs, List.map_append, logged_ids]
    have hcount : s'.apiLogs.length = s.apiLogs.length +
        (new.filter (fun e => e.outcome.isResponse)).length := by
      rw [hlogs, List.length_append, logged_length]
    rw [hnew]
    exact ⟨hsent, hlogs, hcount, hids, by rw [hids]⟩
  exact ⟨key _ (processDocument_calls env s),
    key _ ⟨_, deleteObjects_sent stub s, deleteObjects_apiLogs stub s⟩⟩

/-- C8, counterexample: the user clicks Cancel while the `input_data` call is
in flight (the second `await` of the run), when the summary is still empty;
the remote service answers every call with 2xx; the run ends with
`currentStep = 3`, the summary of the GET response, `progress = 100` and the
three responses logged. -/
theorem C8_cancel_counterexample :
    readyState.summary = .str "" ∧
    (processDocumentCancelAt 1 okEnv readyState).currentStep = 3 ∧
    (processDocumentCancelAt 1 okEnv readyState).summary = .str "• topic one\n• topic two" ∧
    (processDocumentCancelAt 1 okEnv readyState).progress = 100 ∧
    (processDocumentCancelAt 1 okEnv readyState).apiLogs.length = 3 :=
  ⟨rfl, rfl, rfl, rfl, rfl⟩

/-- C8, amended: the Cancel handler sets `currentStep` to 1 and `isProcessing`
to false and does nothing else; a `processDocument` in flight is not
interrupted: its late response is logged and the run goes on through its
remaining steps, so that, whatever the `await` during which the user clicked
Cancel and whatever the remote service answers, the run ends in the same state
as the run without the click. -/
theorem C8_cancel_does_not_stop_run (n : Nat) (env : RunEnv) (s : State) :
    (cancelClick s = { s with isProcessing := false, currentStep := 1 }) ∧
    processDocumentCancelAt n env s = processDocument env s :=
  ⟨rfl, cancelAt_eq_processDocument n env s⟩

/-- C9, counterexample: from the initial state the user picks a file, runs
`processDocument` against a service that answers 2xx, then `deleteObjects`
against a service that answers 2xx (every event being one the page offers):
the state reached has `progress = 100` and `currentStep = 1`. -/
theorem C9_progress_counterexample :
    allOffered deleteAfterRunSession initialConfig = true ∧
    (play deleteAfterRunSession initialConfig).inFlight.length = 0 ∧
    (play deleteAfterRunSession initialConfig).state.progress = 100 ∧
    (play deleteAfterRunSession initialConfig).state.currentStep = 1 :=
  ⟨rfl, rfl, rfl, rfl⟩

/-- C9, amended: in every state reached from the initial state by any
sequence of events (file selections, clicks on Process Document, Cancel,
Process Another Document and Delete Objects, and the settling of the promises
awaited by the handlers in flight, which may overlap; whether or not the page
offers the event at that moment), `progress = 100`
implies `currentStep = 3` or `currentStep = 1`: it is never 100 in step 2.
An event brings `progress` to 100 only together with `currentStep = 3` (the
end of a successful `processDocument`); `progress` can be left at 100 after a
return to step 1, since `deleteObjects`, and the `catch` block of an
overlapping run, go back to step 1 without resetting it. -/
theorem C9_progress (events : List Event) (e : Event) :
    ((play events initialConfig).state.progress = 100 →
      (play events initialConfig).state.currentStep = 3 ∨
      (play events initialConfig).state.currentStep = 1) ∧
    ((e.fire (play events initialConfig)).state.progress = 100 →
      (play events initialConfig).state.progress ≠ 100 →
      (e.fire (play events initialConfig)).state.currentStep = 3) := by
  have hsafe := play_safe events initialConfig initialConfig_safe
  refine ⟨fun h100 => ?_, (fire_safe e _ hsafe).2.2⟩
  rcases hsafe.1 with h | h | h
  · exact Or.inr h
  · exact Or.inl h
  · exact absurd h100 h.2

theorem C9_progress_witness :
    allOffered (overlappingRunsSession ++ [Event.settle 0]) initialConfig = true ∧
    ((play overlappingRunsSession initialConfig).state.progress = 100 ∧
      (play overlappingRunsSession initialConfig).state.currentStep = 3) ∧
    ((play (overlappingRunsSession ++ [Event.settle 0]) initialConfig).state.progress = 100 ∧
      (play (overlappingRunsSession ++ [Event.settle 0]) initialConfig).state.currentStep = 1 ∧
      (play (overlappingRunsSession ++ [Event.settle 0]) initialConfig).state.summary
        = .str "• topic one\n• topic two" ∧
      (play (overlappingRunsSession ++ [Event.settle 0]) initialConfig).state.createdObjects
        = ["uploaded_document", "document_summary"]) ∧
    ((play (overlappingRunsSession ++ [Event.settle 0]) initialConfig).state.currentStep = 3 ∨
      (play (overlappingRunsSession ++ [Event.settle 0]) initialConfig).state.currentStep = 1) ∧
    (Event.fire (.settle 1)
      (play (overlappingRunsSession.take 8) initialConfig)).state.currentStep = 3 :=
  ⟨rfl, ⟨rfl, rfl⟩, ⟨rfl, rfl, rfl, rfl⟩,
    (C9_progress (overlappingRunsSession ++ [Event.settle 0]) .clickCancel).1 rfl,
    (C9_progress (overlappingRunsSession.take 8) (.settle 1)).2 rfl
      (show (90 : Nat) ≠ 100 by decide)⟩

/-- C10: a run of `processDocument` that completes leaves the ledger it
started with followed by `'uploaded_document'` and `'document_summary'`, with
no deduplication; so
after `n` completed rounds with no `deleteObjects` in between (`resetApp`
allowed) the ledger is the initial one followed by `n` copies of the two
names, its length is the initial length plus `2n` (`2n` from the initial
state), and a following `deleteObjects` whose calls all get a response makes
one DELETE call per entry: `2n` more than the initial length. -/
theorem C10_ledger_accumulates (rounds : List Round) (stub : Nat → Outcome) (s : State)
    (hrounds : ∀ r ∈ rounds, r.completes = true)
    (hstub : ∀ k, (stub k).isResponse = true) :
    (∀ r ∈ rounds, ∀ s₀ : State, s₀.file = some r.file →
      (processDocument r.env s₀).createdObjects
        = s₀.createdObjects ++ ["uploaded_document", "document_summary"]) ∧
    (playRounds rounds s).createdObjects = s.createdObjects ++
      (List.replicate rounds.length ["uploaded_document", "document_summary"]).flatten ∧
    (playRounds rounds s).createdObjects.length = s.createdObjects.length + 2 * rounds.length ∧
    (playRounds rounds initialState).createdObjects.length = 2 * rounds.length ∧
    (callsSince (playRounds rounds s) (deleteObjects stub (playRounds rounds s))).map Exchange.request
      = (playRounds rounds s).createdObjects.map deleteRequest ∧
    (callsSince (playRounds rounds s) (deleteObjects stub (playRounds rounds s))).length
      = s.createdObjects.length + 2 * rounds.length := by
  have hledger := playRounds_createdObjects rounds s hrounds
  have hlength : ∀ s₀ : State, (playRounds rounds s₀).createdObjects.length
      = s₀.createdObjects.length + 2 * rounds.length := by
    intro s₀
    rw [playRounds_createdObjects rounds s₀ hrounds]
    simp [Nat.mul_comm]
  have hcalls : callsSince (playRounds rounds s) (deleteObjects stub (playRounds rounds s))
      = deleteExchanges stub 0 (playRounds rounds s).createdObjects := by
    unfold callsSince
    rw [deleteObjects_sent, List.drop_left]
  have hall := deleteExchanges_of_responses stub (playRounds rounds s).createdObjects 0
    (fun j _ => hstub (0 + j))
  refine ⟨fun r hr s₀ hfile => run_createdObjects r s₀ hfile (hrounds r hr), hledger, hlength s,
    ?_, ?_, ?_⟩
  · rw [hlength initialState]
    simp [initialState]
  · rw [hcalls, hall.2.1]
  · rw [← hlength s, ← List.length_map (playRounds rounds s).createdObjects deleteRequest,
      ← hall.2.1, List.length_map, hcalls]

theorem C10_ledger_accumulates_witness :
    (playRounds twoRounds initialState).createdObjects
      = ["uploaded_document", "document_summary", "uploaded_document", "document_summary"] ∧
    (callsSince (playRounds twoRounds initialState)
      (deleteObjects (fun _ => .responded true okBody (sampleClock 4000))
        (playRounds twoRounds initialState))).length = 4 :=
  have h := C10_ledger_accumulates twoRounds (fun _ => .responded true okBody (sampleClock 4000))
    initialState
    (by intro r hr; simp [twoRounds] at hr; rcases hr with rfl | rfl <;> rfl)
    (fun _ => rfl)
  ⟨h.2.1, h.2.2.2.2.2⟩

end DocumentSummarizer
